import Mathlib

/-!
Verification of `src/lib/album.py`: a class `Album` with a class-level
allowed-genre list `GENRES`, a shared counter `album_count`, a validated
constructor, a pure membership query `check_genre`, and a classmethod
`increase_album_count`.

Shallow embedding: the shared class-level counter is threaded explicitly
as an `Int` (Python integers are unbounded). An instance is a structure
whose attributes are `Option`-valued, since the Python constructor sets
`genre` and `release_date` only when validation passes; `none` models
"attribute not set on the instance". The release date is an opaque value,
modelled by a type parameter. Module-level execution (lines 22-26 of the
source) is modelled by running the statements in order with Python call
semantics: `Album()` with zero arguments fails the arity check of
`__init__(self, genre, date)` with a `TypeError` before the body runs.
-/

namespace Album

/-- `GENRES = ["Hip-Hop", "Pop", "Jazz"]` (source line 3). -/
def GENRES : List String := ["Hip-Hop", "Pop", "Jazz"]

/-- `album_count = 0` (source line 4): the initial value of the shared
counter in a fresh process. -/
def album_count_init : Int := 0

/-- `check_genre(cls, genre): return genre in cls.GENRES` (source
lines 13-15). Pure by its Lean type: it takes no state and returns none. -/
def check_genre (genre : String) : Bool :=
  GENRES.contains genre

/-- `increase_album_count(cls, increment=1): cls.album_count += increment`
(source lines 17-19), with the increment passed explicitly. Takes the
current shared counter and returns the updated one. -/
def increase_album_count (count : Int) (increment : Int) : Int :=
  count + increment

/-- `increase_album_count` called with no argument: the default value of
`increment` is `1` (source line 18). -/
def increase_album_count_default (count : Int) : Int :=
  increase_album_count count 1

/-- A constructed `Album` instance. Each attribute is `Option`-valued:
`none` means the attribute was never set on the instance. -/
structure Inst (α : Type) where
  genre : Option String
  release_date : Option α
deriving Repr, DecidableEq

/-- `__init__(self, genre, date)` (source lines 6-10): if
`check_genre(genre)` passes, increment the shared counter by 1 and set
`genre` and `release_date`; otherwise do nothing (no error, no increment,
no attributes). Returns the new instance and the updated shared counter. -/
def init {α : Type} (genre : String) (date : α) (count : Int) :
    Inst α × Int :=
  if check_genre genre then
    (⟨some genre, some date⟩, increase_album_count_default count)
  else
    (⟨none, none⟩, count)

/-- Construct a sequence of albums in order, threading the shared counter;
returns the final counter. -/
def constructAll {α : Type} (entries : List (String × α)) (count : Int) :
    Int :=
  match entries with
  | [] => count
  | (g, d) :: rest => constructAll rest (init g d count).2

/-- Python call semantics for `Album(...)`: `__init__` declares two
required parameters `genre` and `date` besides `self`, so a call supplying
no arguments raises `TypeError` before the constructor body runs. A call
supplying both arguments runs `init`. -/
def callAlbum {α : Type} (args : Option (String × α)) (count : Int) :
    Except String (Inst α × Int) :=
  match args with
  | some (g, d) => Except.ok (init g d count)
  | none => Except.error "TypeError: missing required arguments genre, date"

/-- Run a list of `Album(...)` call statements in order (each argument
list given as in `callAlbum`), threading the shared counter. Returns the
counter at the point execution stops, and the error if one was raised. -/
def execCalls {α : Type} (stmts : List (Option (String × α)))
    (count : Int) : Int × Option String :=
  match stmts with
  | [] => (count, none)
  | a :: rest =>
    match callAlbum a count with
    | Except.ok (_, c2) => execCalls rest c2
    | Except.error e => (count, some e)

/-- Module-level execution (source lines 22-26): three `Album()` calls
with no arguments, starting from the fresh counter; the two bare attribute
reads on lines 25-26 have no effect on the counter. -/
def moduleLoad : Int × Option String :=
  execCalls ([none, none, none] : List (Option (String × Unit)))
    album_count_init

/-- Lowercase every character of a string, viewed as its character list. -/
def lowerChars (l : List Char) : List Char :=
  l.map Char.toLower

/-- Remove leading and trailing whitespace from a character list. -/
def stripEnds (l : List Char) : List Char :=
  ((l.dropWhile (fun c => c.isWhitespace)).reverse.dropWhile
    (fun c => c.isWhitespace)).reverse

/-- The string `g` differs from `h` only in letter case or surrounding
whitespace (and is not `h` itself): after stripping surrounding
whitespace and lowercasing, `g` coincides with lowercased `h`. Every
string that differs from an allowed genre only in case or surrounding
whitespace satisfies this relation with that genre, since the allowed
genres carry no surrounding whitespace. -/
def caseSpaceVariant (g h : String) : Prop :=
  g ≠ h ∧ lowerChars (stripEnds g.data) = lowerChars h.data

instance (g h : String) : Decidable (caseSpaceVariant g h) := by
  unfold caseSpaceVariant
  infer_instance

end Album

open Album

/-- C1: for every genre accepted by the membership check and every date,
construction stores `genre` and `release_date` equal to the arguments and
increments the shared counter by 1. -/
theorem C1_valid_construction_stores_and_increments
    {α : Type} (genre : String) (date : α) (count : Int)
    (h : check_genre genre = true) :
    init genre date count = (⟨some genre, some date⟩, count + 1) := by
  simp [init, h, increase_album_count_default, increase_album_count]

/-- Witness for C1 at genre `"Pop"`, date `()`, counter `0`. -/
theorem C1_valid_construction_stores_and_increments_witness :
    check_genre "Pop" = true ∧
      init "Pop" () 0 = (⟨some "Pop", some ()⟩, 1) :=
  ⟨by decide, C1_valid_construction_stores_and_increments "Pop" () 0
    (by decide)⟩

/-- C2: for every genre rejected by the membership check and every date,
construction raises no error, leaves the shared counter unchanged, and
sets neither `genre` nor `release_date` on the instance. -/
theorem C2_invalid_construction_is_silent_noop
    {α : Type} (genre : String) (date : α) (count : Int)
    (h : check_genre genre = false) :
    init genre date count = (⟨none, none⟩, count) := by
  simp [init, h]

/-- Witness for C2 at genre `"Rock"`, date `()`, counter `0`. -/
theorem C2_invalid_construction_is_silent_noop_witness :
    check_genre "Rock" = false ∧
      init "Rock" () 0 = (⟨none, none⟩, 0) :=
  ⟨by decide, C2_invalid_construction_is_silent_noop "Rock" () 0
    (by decide)⟩

/-- Helper for C3: the counter after a sequence of constructions is the
starting counter plus the number of entries whose genre passes
validation. -/
theorem constructAll_eq_count_valid {α : Type}
    (entries : List (String × α)) (count : Int) :
    constructAll entries count =
      count + ((entries.filter (fun p => check_genre p.1)).length : Int) := by
  induction entries generalizing count with
  | nil => simp [constructAll]
  | cons hd tl ih =>
    obtain ⟨g, d⟩ := hd
    by_cases hg : check_genre g = true
    · simp [constructAll, init, hg, increase_album_count_default,
        increase_album_count, ih, List.filter]
      ring
    · simp [constructAll, init, hg, ih, List.filter]

/-- C3: after any sequence of constructions from a fresh process, the
shared counter equals the number of constructions whose genre passed
validation; in particular, after constructing albums with the three
valid genres "Hip-Hop", "Pop", "Jazz", the counter equals 3. -/
theorem C3_counter_counts_validated_constructions :
    (∀ {α : Type} (entries : List (String × α)),
        constructAll entries album_count_init =
          ((entries.filter (fun p => check_genre p.1)).length : Int)) ∧
      constructAll
        ([("Hip-Hop", ()), ("Pop", ()), ("Jazz", ())] :
          List (String × Unit)) album_count_init = 3 := by
  constructor
  · intro α entries
    rw [constructAll_eq_count_valid]
    simp [album_count_init]
  · decide

/-- C4: `check_genre genre` returns `true` iff `genre` is a member of
`GENRES`. The call is pure by construction: its Lean type takes no state
and returns none, so `GENRES`, the counter, and instance state are
untouched. -/
theorem C4_check_genre_iff_membership (genre : String) :
    check_genre genre = true ↔ genre ∈ GENRES := by
  simp [check_genre]

/-- C5: for every integer increment (including zero and negatives),
`increase_album_count` adds exactly the increment to the shared counter
with no guard, the no-argument form adds exactly 1, and the operation is
a standalone function independent of construction. -/
theorem C5_increase_adds_exactly (count increment : Int) :
    increase_album_count count increment = count + increment ∧
      increase_album_count_default count = count + 1 := by
  constructor
  · rfl
  · rfl

/-- C6: the allowed-genre sequence is exactly the three-element list
`["Hip-Hop", "Pop", "Jazz"]`, in that order. -/
theorem C6_genres_exact : GENRES = ["Hip-Hop", "Pop", "Jazz"] := rfl

/-- C7: in a fresh process, before any construction or explicit
increment, the shared counter equals 0. -/
theorem C7_counter_starts_at_zero : album_count_init = 0 := rfl

/-- C8: loading the module does not end with the counter at 3: the three
module-level `Album()` calls omit the required `genre` and `date`
arguments, so execution fails at the first call with a `TypeError` and
the counter is still 0 at that point, contrary to the trailing
comment `# 3`. -/
theorem C8_module_load_fails_with_counter_zero :
    moduleLoad =
      (0, some "TypeError: missing required arguments genre, date") := rfl

/-- C9: genre validation is exact, case-sensitive string comparison:
for every string `g` that differs from some allowed genre `h` only in
letter case or surrounding whitespace, `check_genre g` returns `false`,
and construction with genre `g` stores nothing and leaves the shared
counter unchanged, for every date and every starting counter. -/
theorem C9_validation_is_case_sensitive {α : Type}
    (g h : String) (d : α) (c : Int)
    (hmem : h ∈ GENRES) (hvar : caseSpaceVariant g h) :
    check_genre g = false ∧ init g d c = (⟨none, none⟩, c) := by
  obtain ⟨hne, hlow⟩ := hvar
  have hg : g ∉ GENRES := by
    intro hgmem
    simp only [GENRES, List.mem_cons, List.not_mem_nil, or_false]
      at hmem hgmem
    rcases hmem with rfl | rfl | rfl <;> rcases hgmem with rfl | rfl | rfl <;>
      first
        | exact hne rfl
        | exact absurd hlow (by decide)
  have hcg : check_genre g = false := by
    simpa [check_genre] using hg
  exact ⟨hcg, by simp [init, hcg]⟩

/-- Witness for C9 at `g = "pop"` (a case variant of the allowed genre
`"Pop"`), date `()`, counter `0`. -/
theorem C9_validation_is_case_sensitive_witness :
    ("Pop" ∈ GENRES ∧ caseSpaceVariant "pop" "Pop") ∧
      check_genre "pop" = false ∧
        init "pop" () 0 = (⟨none, none⟩, (0 : Int)) :=
  ⟨⟨by decide, by decide⟩,
    C9_validation_is_case_sensitive "pop" "Pop" () 0 (by decide) (by decide)⟩

/-- C10: increments compose additively and commute: two successive calls
with `a` and `b` equal a single call with `a + b`, from any starting
counter, and the two calls may be made in either order. -/
theorem C10_increments_compose_additively (a b count : Int) :
    increase_album_count (increase_album_count count a) b =
        increase_album_count count (a + b) ∧
      increase_album_count (increase_album_count count a) b =
        increase_album_count (increase_album_count count b) a := by
  constructor
  · simp [increase_album_count]; ring
  · simp [increase_album_count]; ring
